import Mathlib

/-
Verification of the python-chess repository (src/chess.py).

The development shallowly embeds the source: Python lists become Lean lists,
Python list subscripts become `pyGet`/`pySet` (which reproduce CPython
semantics: a negative index wraps from the end, an index past the end raises
IndexError), and any exception (IndexError, AttributeError, TypeError,
KeyError, ValueError, explicit raise) is modelled as `none` of an `Option`
result.  In-place mutation of the caller's `obstacles` list by the sliding
pieces is modelled by returning the post-call list alongside the result, and
the pawn generator additionally returns the list of raw indices it passed to
list subscription (its read log), so that out-of-range and negative-index
reads are observable.  Machine integers are `Int` (Python ints are unbounded,
so no wrap-around modelling is needed).
-/

namespace Chess

/-- CPython `list.__getitem__`: a negative index `i` with `-len <= i` reads
`l[len + i]`; an index outside `[-len, len)` raises IndexError (`none`). -/
def pyGet (l : List α) (i : Int) : Option α :=
  if 0 ≤ i then l[i.toNat]?
  else if i.natAbs ≤ l.length then l[l.length - i.natAbs]? else none

/-- CPython `list.__setitem__` with the same index semantics as `pyGet`;
`none` models IndexError. -/
def pySet (l : List α) (i : Int) (a : α) : Option (List α) :=
  if 0 ≤ i then
    if i.toNat < l.length then some (l.set i.toNat a) else none
  else if i.natAbs ≤ l.length then some (l.set (l.length - i.natAbs) a) else none

/-- Whitespace characters recognised by Python's `str.strip`/`str.isspace`
(the subset that can occur in this repository's inputs). -/
def isWS (c : Char) : Bool :=
  c = ' ' || c = '\t' || c = '\n' || c = '\r'

/-- Python `str.strip()` (no argument): drop leading and trailing whitespace. -/
def pyStrip (s : List Char) : List Char :=
  ((s.dropWhile isWS).reverse.dropWhile isWS).reverse

/-- Python `str.isspace()`: true iff the string is non-empty and all
whitespace.  The empty string is NOT whitespace (relevant in `board.__init__`'s
component filter). -/
def pyIsSpaceStr (s : List Char) : Bool :=
  !s.isEmpty && s.all isWS

/-- Python `str.split(" ")`: split on every single space, keeping empty
components between consecutive separators. -/
def splitSp : List Char → List (List Char)
  | [] => [[]]
  | c :: rest =>
    match splitSp rest with
    | [] => [[c]]
    | h :: t => if c = ' ' then [] :: h :: t else (c :: h) :: t

/-- Digits of a non-empty all-decimal string, as a natural number; `none`
models CPython `int()` raising ValueError. -/
def natOfDigits (l : List Char) : Option Nat :=
  if l.isEmpty then none
  else if l.all Char.isDigit then
    some (l.foldl (fun a c => 10 * a + (c.toNat - 48)) 0)
  else none

/-- Python `int(s)`: strip whitespace, optional sign, decimal digits. -/
def pyInt (s : List Char) : Option Int :=
  match pyStrip s with
  | '-' :: rest => (natOfDigits rest).map (fun n => -(n : Int))
  | '+' :: rest => (natOfDigits rest).map (fun n => (n : Int))
  | t => (natOfDigits t).map (fun n => (n : Int))

/-- Decimal digits of a natural number (helper for Python `str(int)`),
fuel-driven; the fuel `n + 1` always suffices since the argument shrinks by a
factor of 10 each step. -/
def natReprAux : Nat → Nat → List Char → List Char
  | 0, _, acc => acc
  | fuel + 1, n, acc =>
    if n < 10 then Char.ofNat (48 + n) :: acc
    else natReprAux fuel (n / 10) (Char.ofNat (48 + n % 10) :: acc)

/-- Python `str(n)` for a natural number. -/
def natRepr (n : Nat) : List Char :=
  natReprAux (n + 1) n []

/-- Python `str(i)` for an integer. -/
def intRepr (i : Int) : List Char :=
  if i < 0 then '-' :: natRepr i.natAbs else natRepr i.toNat

-- ---------------------------------------------------------------------------
-- Piece move generation (src/chess.py lines 47-272).
-- `n` is the `sideLength` parameter (the callers in `board` always use the
-- default 8); `p` is `self.position`.
-- ---------------------------------------------------------------------------

/-- king.getMoves (lines 48-84).  Reads no obstacle entries at all; the
edge flags are computed once and each of the 8 candidate squares is gated. -/
def kingGetMoves (n p : Int) : List Int :=
  let up := p - n ≥ 0
  let down := p + n < n * n
  let left := p % n ≥ 1
  let right := p % n ≤ 6
  (if up ∧ left then [p - n - 1] else []) ++
  (if up then [p - n] else []) ++
  (if up ∧ right then [p - n + 1] else []) ++
  (if right then [p + 1] else []) ++
  (if down ∧ right then [p + n + 1] else []) ++
  (if down then [p + n] else []) ++
  (if down ∧ left then [p + n - 1] else []) ++
  (if left then [p - 1] else [])

/-- knight.getMoves (lines 186-228).  Reads no obstacle entries; note the
source's literal `7` and `6` file bounds. -/
def knightGetMoves (n p : Int) : List Int :=
  (if p + 2 * n < n * n then
    (if p % n ≠ 0 then [p + 2 * n - 1] else []) ++
    (if p % n ≠ 7 then [p + 2 * n + 1] else [])
  else []) ++
  (if p - 2 * n ≥ 0 then
    (if p % n ≠ 0 then [p - 2 * n - 1] else []) ++
    (if p % n ≠ 7 then [p - 2 * n + 1] else [])
  else []) ++
  (if ¬(p % n ≤ 1) then
    (if p - n ≥ 0 then [p - 2 - n] else []) ++
    (if p + n < n * n then [p - 2 + n] else [])
  else []) ++
  (if ¬(p % n ≥ 6) then
    (if p - n ≥ 0 then [p + 2 - n] else []) ++
    (if p + n < n * n then [p + 2 + n] else [])
  else [])

/-- One `while not (stop)` directional walk shared by rook and bishop.
`guard c` evaluates the loop condition at index `c` exactly as Python does
(`none` = exception during the obstacle read); stepping appends the NEW index,
so the first occupied square is included and the walk stops on it next
iteration.  The fuel (64 at every call site) strictly exceeds the length of
any ray on the 8x8 board, so exhaustion is unreachable there. -/
def walk (guard : Int → Option Bool) (step : Int) : Int → Nat → Option (List Int)
  | _, 0 => none
  | cur, fuel + 1 =>
    match guard cur with
    | none => none
    | some true => some []
    | some false =>
      match walk guard step (cur + step) fuel with
      | none => none
      | some rest => some ((cur + step) :: rest)

/-- rook loop condition, moving right (line 110): the obstacle entry is read
first (short-circuit `or`), then the file bound. -/
def rookGuardRight (n : Int) (o : List Bool) (c : Int) : Option Bool :=
  match pyGet o c with
  | none => none
  | some b => some (b || decide (c % n ≥ n - 1))

/-- rook loop condition, moving left (line 119). -/
def rookGuardLeft (n : Int) (o : List Bool) (c : Int) : Option Bool :=
  match pyGet o c with
  | none => none
  | some b => some (b || decide (c % n ≤ 0))

/-- rook loop condition, moving up (line 125).  The source tests
`currentIndex - sideLength <= 0` (not `< 0`), so the walk also stops when the
next square would be exactly index 0. -/
def rookGuardUp (n : Int) (o : List Bool) (c : Int) : Option Bool :=
  match pyGet o c with
  | none => none
  | some b => some (b || decide (c - n ≤ 0))

/-- rook loop condition, moving down (line 131). -/
def rookGuardDown (n : Int) (o : List Bool) (c : Int) : Option Bool :=
  match pyGet o c with
  | none => none
  | some b => some (b || decide (c + n ≥ n * n))

/-- The four rook walks (lines 109-135), in source order right, left, up,
down, over the already-mutated obstacle list. -/
def rookRays (n p : Int) (o : List Bool) : Option (List Int) :=
  match walk (rookGuardRight n o) 1 p 64 with
  | none => none
  | some r1 =>
    match walk (rookGuardLeft n o) (-1) p 64 with
    | none => none
    | some r2 =>
      match walk (rookGuardUp n o) (-n) p 64 with
      | none => none
      | some r3 =>
        match walk (rookGuardDown n o) n p 64 with
        | none => none
        | some r4 => some (r1 ++ r2 ++ r3 ++ r4)

/-- rook.getMoves (lines 99-135).  First mutates the CALLER's obstacle list:
`obstacles[self.position] = False` (line 105), never restored.  The second
component is the post-call state of that list. -/
def rookGetMoves (n p : Int) (obs : List Bool) : Option (List Int) × List Bool :=
  match pySet obs p false with
  | none => (none, obs)
  | some o => (rookRays n p o, o)

/-- bishop loop condition, north-east (lines 149-151): both edge tests
short-circuit BEFORE the obstacle read. -/
def bishopGuardNE (n : Int) (o : List Bool) (c : Int) : Option Bool :=
  if c % n ≥ n - 1 then some true
  else if c - n < 0 then some true
  else pyGet o c

/-- bishop loop condition, south-east (lines 159-161). -/
def bishopGuardSE (n : Int) (o : List Bool) (c : Int) : Option Bool :=
  if c % n ≥ n - 1 then some true
  else if c + n ≥ n * n then some true
  else pyGet o c

/-- bishop loop condition, south-west (lines 168-170). -/
def bishopGuardSW (n : Int) (o : List Bool) (c : Int) : Option Bool :=
  if c % n ≤ 0 then some true
  else if c + n ≥ n * n then some true
  else pyGet o c

/-- bishop loop condition, north-west (lines 177-179). -/
def bishopGuardNW (n : Int) (o : List Bool) (c : Int) : Option Bool :=
  if c % n ≤ 0 then some true
  else if c - n < 0 then some true
  else pyGet o c

/-- The four bishop walks (lines 148-183), in source order NE, SE, SW, NW. -/
def bishopRays (n p : Int) (o : List Bool) : Option (List Int) :=
  match walk (bishopGuardNE n o) (1 - n) p 64 with
  | none => none
  | some r1 =>
    match walk (bishopGuardSE n o) (n + 1) p 64 with
    | none => none
    | some r2 =>
      match walk (bishopGuardSW n o) (n - 1) p 64 with
      | none => none
      | some r3 =>
        match walk (bishopGuardNW n o) (-n - 1) p 64 with
        | none => none
        | some r4 => some (r1 ++ r2 ++ r3 ++ r4)

/-- bishop.getMoves (lines 138-183); like the rook it sets
`obstacles[self.position] = False` (line 144) in the caller's list. -/
def bishopGetMoves (n p : Int) (obs : List Bool) : Option (List Int) × List Bool :=
  match pySet obs p false with
  | none => (none, obs)
  | some o => (bishopRays n p o, o)

/-- queen.getMoves (lines 87-96): rook moves then bishop moves, both run on
the SAME caller list (the bishop sees the rook's mutation); list
concatenation in that order. -/
def queenGetMoves (n p : Int) (obs : List Bool) : Option (List Int) × List Bool :=
  match rookGetMoves n p obs with
  | (none, o1) => (none, o1)
  | (some m1, o1) =>
    match bishopGetMoves n p o1 with
    | (none, o2) => (none, o2)
    | (some m2, o2) => (some (m1 ++ m2), o2)

-- ---------------------------------------------------------------------------
-- Pawn move generation (lines 231-272), instrumented with a read log: the
-- second component records, in order, every raw index the Python code passes
-- to `obstacles[...]`, including reads that raise or that resolve a negative
-- index by wrapping.
-- ---------------------------------------------------------------------------

/-- White pawn, diagonal-capture part (lines 246-254).  Both guards read
`obstacles[self.position - sideLength]` — the square DIRECTLY AHEAD, not the
diagonal square — unconditionally (the subscript is the first operand of the
`and`). -/
def pawnW2 (n p : Int) (obs : List Bool) (acc log : List Int) :
    Option (List Int) × List Int :=
  let log1 := log ++ [p - n]
  match pyGet obs (p - n) with
  | none => (none, log1)
  | some b =>
    let acc1 := if b ∧ ¬(p - n < 0 ∨ p % n ≤ 0) then acc ++ [p - n - 1] else acc
    let log2 := log1 ++ [p - n]
    match pyGet obs (p - n) with
    | none => (none, log2)
    | some b2 =>
      let acc2 := if b2 ∧ ¬(p - n < 0 ∨ p % n ≥ n - 1) then acc1 ++ [p - n + 1] else acc1
      (some acc2, log2)

/-- White pawn (lines 241-256).  The forward push's bound test short-circuits
before the read (line 242); the diagonal guards do not. -/
def pawnW (n p : Int) (obs : List Bool) : Option (List Int) × List Int :=
  if p - n < 0 then pawnW2 n p obs [] []
  else
    match pyGet obs (p - n) with
    | none => (none, [p - n])
    | some b => pawnW2 n p obs (if b then [] else [p - n]) [p - n]

/-- Black pawn, diagonal-capture part (lines 263-272); mirrors `pawnW2` with
`position + sideLength` and the `>= sideLength * sideLength` bound. -/
def pawnB2 (n p : Int) (obs : List Bool) (acc log : List Int) :
    Option (List Int) × List Int :=
  let log1 := log ++ [p + n]
  match pyGet obs (p + n) with
  | none => (none, log1)
  | some b =>
    let acc1 := if b ∧ ¬(p + n ≥ n * n ∨ p % n ≤ 0) then acc ++ [p + n - 1] else acc
    let log2 := log1 ++ [p + n]
    match pyGet obs (p + n) with
    | none => (none, log2)
    | some b2 =>
      let acc2 := if b2 ∧ ¬(p + n ≥ n * n ∨ p % n ≥ n - 1) then acc1 ++ [p + n + 1] else acc1
      (some acc2, log2)

/-- Black pawn (lines 259-272). -/
def pawnB (n p : Int) (obs : List Bool) : Option (List Int) × List Int :=
  if p + n ≥ n * n then pawnB2 n p obs [] []
  else
    match pyGet obs (p + n) with
    | none => (none, [p + n])
    | some b => pawnB2 n p obs (if b then [] else [p + n]) [p + n]

/-- pawn.getMoves (lines 231-272): dispatch on `self.colour == "w"`. -/
def pawnGetMoves (colour : String) (n p : Int) (obs : List Bool) :
    Option (List Int) × List Int :=
  if colour = "w" then pawnW n p obs else pawnB n p obs

-- ---------------------------------------------------------------------------
-- Board layer (src/chess.py lines 276-526).
-- The six piece subclasses become a closed tag; a piece value carries the
-- `colour` and `position` attributes set by `piece.__init__`.
-- ---------------------------------------------------------------------------

inductive PieceKind where
  | king | queen | rook | bishop | knight | pawn
deriving DecidableEq, Repr

structure PieceE where
  kind : PieceKind
  colour : String
  position : Nat
deriving DecidableEq, Repr

/-- Kind-dispatching `getMoves` as invoked by `board` (always with the default
`sideLength = 8`).  First component: result or exception; second: the
post-call state of the caller's obstacle list (mutated by rook, bishop and
queen, untouched by king, knight and pawn). -/
def getMovesE (pc : PieceE) (obs : List Bool) : Option (List Int) × List Bool :=
  match pc.kind with
  | PieceKind.king => (some (kingGetMoves 8 pc.position), obs)
  | PieceKind.queen => queenGetMoves 8 pc.position obs
  | PieceKind.rook => rookGetMoves 8 pc.position obs
  | PieceKind.bishop => bishopGetMoves 8 pc.position obs
  | PieceKind.knight => (some (knightGetMoves 8 pc.position), obs)
  | PieceKind.pawn => ((pawnGetMoves pc.colour 8 pc.position obs).1, obs)

/-- board state (lines 311-326): the fields assigned by `board.__init__`. -/
structure BoardE where
  boardPieces : List (Option PieceE)
  castling : List Char
  sideLength : Nat
  playerTurn : String
  enPassantSquare : Option Int
  fiftyMovesClock : Int
  fullMoveClock : Int
deriving DecidableEq, Repr

/-- board.pieceMappings (lines 279-286): lowercase piece letter to class;
`none` models the KeyError re-raised at line 356. -/
def pieceMappings (c : Char) : Option PieceKind :=
  if c = 'k' then some PieceKind.king
  else if c = 'q' then some PieceKind.queen
  else if c = 'r' then some PieceKind.rook
  else if c = 'b' then some PieceKind.bishop
  else if c = 'n' then some PieceKind.knight
  else if c = 'p' then some PieceKind.pawn
  else none

/-- board.convertSquareToIndex (lines 288-300):
`sideLength * (sideLength - int(square[1:])) + (ord(square[0].casefold()) - 97)`
after a strip and a length check (`none` models the raised exceptions). -/
def convertSquareToIndex (s : List Char) : Option Int :=
  let t := pyStrip s
  if t.length < 2 then none
  else
    match t with
    | c :: rest =>
      match pyInt rest with
      | none => none
      | some rank => some (8 * (8 - rank) + ((c.toLower.toNat : Int) - 97))
    | [] => none

/-- board.convertIndexToSquare (lines 302-309):
`chr(square % sideLength + 97) + str(sideLength - square // sideLength)`. -/
def convertIndexToSquare (i : Nat) : List Char :=
  Char.ofNat (i % 8 + 97) :: intRepr (8 - (i : Int) / 8)

/-- One rank description of the FEN (inner loop of lines 340-358), threading
the accumulated cell list and the running `chessLineSum`.  A digit adds its
value to the sum but — because the source iterates `for _ in pieceLetter` over
the ONE-character string — appends exactly ONE `None` cell, whatever the
digit's value.  A letter becomes a piece whose `position` is the cell list's
length at append time. -/
def processRank : List Char → List (Option PieceE) → Nat →
    Option (List (Option PieceE) × Nat)
  | [], acc, chessLineSum => some (acc, chessLineSum)
  | c :: cs, acc, chessLineSum =>
    if c.isDigit then
      processRank cs (acc ++ [none]) (chessLineSum + (c.toNat - 48))
    else
      let pieceColour := if c.isUpper then "w" else "b"
      match pieceMappings c.toLower with
      | none => none
      | some k =>
        processRank cs (acc ++ [some ⟨k, pieceColour, acc.length⟩]) (chessLineSum + 1)

/-- The eight rank components (outer loop of lines 340-360): each rank's
`chessLineSum` must equal the side length 8 or construction raises. -/
def processRanks : List (List Char) → List (Option PieceE) →
    Option (List (Option PieceE))
  | [], acc => some acc
  | comp :: rest, acc =>
    match processRank comp acc 0 with
    | none => none
    | some (acc2, chessLineSum) =>
      if chessLineSum = 8 then processRanks rest acc2 else none

/-- board.__init__ (lines 311-375): strip, turn slashes into spaces, split on
single spaces keeping empty components (Python's `"".isspace()` is false, so
empty components survive the filter), demand exactly `sideLength + 5`
components, parse the ranks, the turn, the castling rights, the en-passant
square and the two clocks.  `none` models any raised exception. -/
def boardInit (fen : List Char) : Option BoardE :=
  let s1 := pyStrip fen
  let s2 := s1.map (fun c => if c = '/' then ' ' else c)
  let components := (splitSp s2).filter (fun c => !pyIsSpaceStr c)
  if components.length ≠ 8 + 5 then none
  else
    match processRanks (components.take 8) [] with
    | none => none
    | some cells =>
      match components[8]?, components[9]?, components[10]?,
            components[11]?, components[12]? with
      | some turn, some cast, some ep, some half, some full =>
        if ¬(turn = ['w'] ∨ turn = ['b']) then none
        else
          let castling := cast.filter (fun c => c.toLower = 'q' || c.toLower = 'k')
          let epRes : Option (Option Int) :=
            if ep = ['-'] then some none
            else
              match convertSquareToIndex ep with
              | none => none
              | some i => some (some i)
          match epRes with
          | none => none
          | some epv =>
            match pyInt half, pyInt full with
            | some h, some f =>
              some ⟨cells, castling, 8, String.mk turn, epv, h, f⟩
            | _, _ => none
      | _, _, _, _, _ => none

/-- board.checkMove (lines 377-385):
`target in self.boardPieces[origin].getMoves([x != None for x in self.boardPieces])`.
`none` models IndexError on the subscript, AttributeError when the origin cell
is `None`, or an exception inside `getMoves`. -/
def checkMoveB (b : BoardE) (origin target : Nat) : Option Bool :=
  match pyGet b.boardPieces (origin : Int) with
  | none => none
  | some none => none
  | some (some pc) =>
    match (getMovesE pc (b.boardPieces.map Option.isSome)).1 with
    | none => none
    | some mv => some (decide ((target : Int) ∈ mv))

/-- The nested `_move` helper (lines 394-398): copy the origin cell into the
target slot, clear the origin slot, then call `.move(target)` on the target
cell — an AttributeError (`none`) if that cell is now `None`. -/
def moveRaw (cells : List (Option PieceE)) (origin target : Nat) :
    Option (List (Option PieceE)) :=
  match pyGet cells (origin : Int) with
  | none => none
  | some v =>
    match pySet cells (target : Int) v with
    | none => none
    | some c1 =>
      match pySet c1 (origin : Int) none with
      | none => none
      | some c2 =>
        match pyGet c2 (target : Int) with
        | none => none
        | some none => none
        | some (some pc) =>
          match pySet c2 (target : Int) (some { pc with position := target }) with
          | none => none
          | some c3 => some c3

/-- board.move (lines 387-525).  With `completeAdminTasks = False` the move is
applied unconditionally and the call returns True.  Otherwise, in source
order: an empty origin cell returns False (line 468); the colour comparison at
line 471 evaluates `self.boardPieces[target].colour`, raising AttributeError
(`none`) whenever the target cell is `None`; equal colours return False; if
`checkMove` accepts, `_move` runs and the turn flips (lines 480-481, 520-525);
otherwise line 482 evaluates `isinstance(pawn, self.boardPieces[origin])`,
whose swapped arguments raise TypeError (`none`) unconditionally, making the
en-passant branch (lines 483-495) and the castling branch (lines 496-516)
unreachable.  The dead locals of the source — `originalBoard` (an alias, line
474), `hasCastled` (line 477, never read), and the never-called
`_checkCastlingRights` / `_checkForCheck` definitions (lines 405-466) — have
no observable effect and are elided. -/
def moveB (b : BoardE) (origin target : Nat) (completeAdminTasks : Bool) :
    Option (BoardE × Bool) :=
  if ¬completeAdminTasks then
    match moveRaw b.boardPieces origin target with
    | none => none
    | some cells => some ({ b with boardPieces := cells }, true)
  else
    match pyGet b.boardPieces (origin : Int) with
    | none => none
    | some none => some (b, false)
    | some (some pOrig) =>
      match pyGet b.boardPieces (target : Int) with
      | none => none
      | some none => none
      | some (some pTgt) =>
        if pOrig.colour = pTgt.colour then some (b, false)
        else
          match checkMoveB b origin target with
          | none => none
          | some true =>
            match moveRaw b.boardPieces origin target with
            | none => none
            | some cells =>
              some ({ b with
                        boardPieces := cells,
                        playerTurn := if b.playerTurn = "w" then "b" else "w" },
                    true)
          | some false => none

-- ---------------------------------------------------------------------------
-- Concrete inputs used by the theorems below.
-- ---------------------------------------------------------------------------

/-- The canonical N=8 starting-position FEN. -/
def stdFen : List Char :=
  String.toList "rnbqkbnr/pppppppp/8/8/8/8/PPPPPPPP/RNBQKBNR w KQkq - 0 1"

/-- Occurrences of colour `col` among a board's cells. -/
def countColour (cells : List (Option PieceE)) (col : String) : Nat :=
  cells.countP (fun c =>
    match c with
    | some p => p.colour == col
    | none => false)

/-- A board holding a single white rook on square 63 (h1). -/
def bRookOnly : BoardE :=
  ⟨(List.replicate 64 (none : Option PieceE)).set 63
      (some ⟨PieceKind.rook, "w", 63⟩),
   [], 8, "w", none, 0, 1⟩

/-- A legal white kingside-castling position: king on 60 (e1), rook on 63
(h1), squares 61 and 62 empty, the white kingside right present, white to
move, and no enemy piece anywhere (so no square is attacked). -/
def bCastle : BoardE :=
  ⟨((List.replicate 64 (none : Option PieceE)).set 60
        (some ⟨PieceKind.king, "w", 60⟩)).set 63
      (some ⟨PieceKind.rook, "w", 63⟩),
   ['K'], 8, "w", none, 0, 1⟩

/-- An en-passant position: black pawn on 24 (a5) that just double-stepped
(en-passant target 16 = a6), white pawn adjacent on 25 (b5), white to move. -/
def bEnPassant : BoardE :=
  ⟨((List.replicate 64 (none : Option PieceE)).set 24
        (some ⟨PieceKind.pawn, "b", 24⟩)).set 25
      (some ⟨PieceKind.pawn, "w", 25⟩),
   [], 8, "w", some 16, 0, 1⟩

/-- Obstruction mask marking ONLY the two diagonal squares (19 and 21) ahead
of a white pawn on 28 as occupied; the square directly ahead (20) is free. -/
def maskDiagsOccupied : List Bool :=
  ((List.replicate 64 false).set 19 true).set 21 true

/-- Obstruction mask marking ONLY the square directly ahead (20) of a white
pawn on 28 as occupied; both diagonal squares are free. -/
def maskAheadOccupied : List Bool :=
  (List.replicate 64 false).set 20 true

/-- The move list the source's rook generator produces from square 8 (a7) on
an empty board: square 0 (a8), one step up the a-file, is missing. -/
def rookFromA7Moves : List Int :=
  [9, 10, 11, 12, 13, 14, 15, 16, 24, 32, 40, 48, 56]

/-- Algebraic square string for 0-based file `f` and 0-based rank offset `r`
(denoting rank number `r + 1`): file letter then rank digit. -/
def sqStr (f r : Nat) : List Char :=
  [Char.ofNat (97 + f), Char.ofNat (49 + r)]

/-- The index formula of the spec for that square: `N * (N - rank) + file`
with `rank = r + 1`, `N = 8`. -/
def sqIdx (f r : Nat) : Nat :=
  8 * (7 - r) + f

-- ---------------------------------------------------------------------------
-- Claim theorems.
-- ---------------------------------------------------------------------------

/-- Claim C1: the claim says an illegal `board.move(origin, target, True)`
always returns the boolean False and never raises.  On the code this fails:
with a lone white rook on 63, the geometrically invalid move 63 -> 0 onto an
empty square raises AttributeError at line 471 (`self.boardPieces[target]` is
`None`, so `.colour` fails), modelled here as `none`; only some illegal moves,
such as moving from the empty origin 0, return False normally. -/
theorem claim_C1 :
    moveB bRookOnly 63 0 true = none ∧
    moveB bRookOnly 0 1 true = some (bRookOnly, false) := by
  exact ⟨rfl, rfl⟩

/-- Claim C2: the claim says a legal kingside castle
`move(kingSquare, kingSquare+2, True)` returns True and relocates king and
rook.  On the code the same call raises AttributeError (`none`): the transit
target square 62 is empty, so line 471 dereferences `None.colour` before the
castling branch (which itself would raise TypeError at line 496 and contains
only placeholder `pass` statements) is ever reached. -/
theorem claim_C2 :
    moveB bCastle 60 62 true = none := by
  exact rfl

/-- Claim C3: the claim says every sliding-piece walk extends to the board
edge (stopping only at the first occupied square, inclusively).  On the code
the rook's upward walk stops one square early at the top-left corner: its
guard is `currentIndex - sideLength <= 0` (line 125) instead of `< 0`, so a
rook on square 8 (a7) on an EMPTY board does not generate square 0 (a8). -/
theorem claim_C3 :
    (rookGetMoves 8 8 (List.replicate 64 false)).1 = some rookFromA7Moves ∧
    (0 : Int) ∉ rookFromA7Moves := by
  exact ⟨rfl, by decide⟩

/-- Claim C4: the claim says a white pawn's diagonal squares are generated iff
the mask marks THAT DIAGONAL square occupied, so both diagonals occupied (and
the square ahead free) gives 3 candidates.  On the code the diagonal guards
test `obstacles[self.position - sideLength]` — the square directly AHEAD
(lines 246, 251) — so a white pawn on 28 with both diagonals (19, 21) occupied
yields only the forward square [20], while a pawn with only the square ahead
(20) occupied yields both empty diagonals [19, 21]. -/
theorem claim_C4 :
    (pawnGetMoves "w" 8 28 maskDiagsOccupied).1 = some [20] ∧
    (pawnGetMoves "w" 8 28 maskAheadOccupied).1 = some [19, 21] := by
  exact ⟨rfl, rfl⟩

/-- Claim C5: the claim says every successfully constructed board has exactly
N^2 = 64 cells.  On the code the digit branch of the FEN rank loop runs
`for _ in pieceLetter` over a ONE-character string (lines 345-346), appending
a single `None` per digit instead of `int(pieceLetter)` of them, so the
standard starting FEN constructs successfully with only 36 cells. -/
theorem claim_C5 :
    (boardInit stdFen).map (fun b => b.boardPieces.length) = some 36 := by
  exact rfl

/-- Claim C6: construction from the canonical N=8 starting FEN succeeds and
the resulting cell array holds exactly 32 pieces, 16 of colour w and 16 of
colour b (this holds even though the empty-square count is wrong, claim C5). -/
theorem claim_C6 :
    (boardInit stdFen).map (fun b =>
      (b.boardPieces.countP Option.isSome,
       countColour b.boardPieces "w",
       countColour b.boardPieces "b")) = some (32, 16, 16) := by
  exact rfl

/-- Claim C7: the claim says an adjacent enemy pawn can capture onto the
en-passant target and the call returns True.  On the code, with the black pawn
on 24 having just double-stepped (target square 16) and the white pawn on 25,
`move(25, 16, True)` raises AttributeError (`none`): square 16 is empty, so
line 471 dereferences `None.colour`; the en-passant branch at line 482 is
additionally unreachable because `isinstance(pawn, self.boardPieces[origin])`
has its arguments swapped and raises TypeError. -/
theorem claim_C7 :
    moveB bEnPassant 25 16 true = none := by
  exact rfl

/-- Claim C8: square/index conversion round-trips both ways on the 8x8 board:
`convertSquareToIndex (convertIndexToSquare i) = i` for every index
`i < 64`, and for every algebraic square (file a..h, rank 1..8) the index is
`N * (N - rank) + (fileLetter - 'a')` and converting it back restores the
square string. -/
theorem claim_C8 :
    (∀ i : Fin 64, convertSquareToIndex (convertIndexToSquare i) = some ((i : Nat) : Int)) ∧
    (∀ f r : Fin 8,
      convertSquareToIndex (sqStr f r) = some ((sqIdx f r : Nat) : Int) ∧
      convertIndexToSquare (sqIdx f r) = sqStr f r) := by
  exact ⟨by decide, by decide⟩

/-- Claim C9: rook, bishop and queen `getMoves` mutate the caller's obstacle
list in place — the entry at the piece's own position is set to False and
never restored, so an initially-occupied own square leaves the caller's list
changed — while king, knight and pawn `getMoves` leave the list untouched. -/
theorem claim_C9 (obs : List Bool) (p : Nat) (c : String)
    (h : obs[p]? = some true) :
    (getMovesE ⟨PieceKind.rook, c, p⟩ obs).2 = obs.set p false ∧
    (getMovesE ⟨PieceKind.bishop, c, p⟩ obs).2 = obs.set p false ∧
    (getMovesE ⟨PieceKind.queen, c, p⟩ obs).2 = obs.set p false ∧
    obs.set p false ≠ obs ∧
    (getMovesE ⟨PieceKind.king, c, p⟩ obs).2 = obs ∧
    (getMovesE ⟨PieceKind.knight, c, p⟩ obs).2 = obs ∧
    (getMovesE ⟨PieceKind.pawn, c, p⟩ obs).2 = obs := by
  have hlen : p < obs.length := by
    by_contra hge
    rw [List.getElem?_eq_none (Nat.le_of_not_lt hge)] at h
    exact Option.noConfusion h
  have hset : pySet obs (p : Int) false = some (obs.set p false) := by
    simp [pySet, hlen]
  have hlen2 : p < (obs.set p false).length := by simpa using hlen
  have hset2 : pySet (obs.set p false) (p : Int) false = some (obs.set p false) := by
    simp [pySet, hlen, List.set_set]
  refine ⟨?_, ?_, ?_, ?_, rfl, rfl, rfl⟩
  · simp [getMovesE, rookGetMoves, hset]
  · simp [getMovesE, bishopGetMoves, hset]
  · simp only [getMovesE, queenGetMoves, rookGetMoves, bishopGetMoves, hset, hset2]
    cases rookRays 8 (p : Int) (obs.set p false) with
    | none => rfl
    | some m1 =>
      simp only [hset2]
      cases bishopRays 8 (p : Int) (obs.set p false) with
      | none => rfl
      | some m2 => rfl
  · intro heq
    have h2 : (obs.set p false)[p]? = obs[p]? := by rw [heq]
    rw [List.getElem?_set_self hlen, h] at h2
    simp at h2

/-- Claim C10: pawn `getMoves` is not total at the board edges.  For a black
pawn on the bottom rank (`position + 8 >= 64`) of a 64-entry mask, the
diagonal-capture guard reads `obstacles[position + sideLength]` with no
preceding bounds check — an out-of-range access, i.e. an IndexError
(`none`) with exactly that index logged — instead of an empty move list; for a
white pawn on the top rank the corresponding guard reads `obstacles` at the
negative index `position - 8` (which CPython resolves by wrapping from the end
rather than raising). -/
theorem claim_C10 (obs : List Bool) (p : Nat) (hlen : obs.length = 64) :
    (56 ≤ p → pawnGetMoves "b" 8 p obs = (none, [(p : Int) + 8])) ∧
    (p < 8 → ((p : Int) - 8 < 0 ∧ ((p : Int) - 8) ∈ (pawnGetMoves "w" 8 p obs).2)) := by
  constructor
  · intro hp
    have hcond : ((p : Int) + 8 ≥ 8 * 8) := by omega
    have hget : pyGet obs ((p : Int) + 8) = none := by
      have h0 : (0 : Int) ≤ (p : Int) + 8 := by omega
      have h1 : obs.length ≤ ((p : Int) + 8).toNat := by omega
      simp [pyGet, h0, List.getElem?_eq_none h1]
    simp [pawnGetMoves, pawnB, pawnB2, hcond, hget]
  · intro hp
    have hcond : ((p : Int) - 8 < 0) := by omega
    refine ⟨hcond, ?_⟩
    simp only [pawnGetMoves, if_pos rfl, pawnW, if_pos hcond]
    cases h1 : pyGet obs ((p : Int) - 8) <;> simp [pawnW2, h1]

/-- Claim C9, witness: a one-entry occupied list with a rook (etc.) on
square 0. -/
theorem claim_C9_witness :
    (getMovesE ⟨PieceKind.rook, "w", 0⟩ [true]).2 = ([true] : List Bool).set 0 false ∧
    (getMovesE ⟨PieceKind.bishop, "w", 0⟩ [true]).2 = ([true] : List Bool).set 0 false ∧
    (getMovesE ⟨PieceKind.queen, "w", 0⟩ [true]).2 = ([true] : List Bool).set 0 false ∧
    ([true] : List Bool).set 0 false ≠ [true] ∧
    (getMovesE ⟨PieceKind.king, "w", 0⟩ [true]).2 = [true] ∧
    (getMovesE ⟨PieceKind.knight, "w", 0⟩ [true]).2 = [true] ∧
    (getMovesE ⟨PieceKind.pawn, "w", 0⟩ [true]).2 = [true] :=
  claim_C9 [true] 0 "w" rfl

/-- Claim C10, witness: a black pawn on square 56 and a white pawn on
square 0 of an all-empty 64-entry mask. -/
theorem claim_C10_witness :
    pawnGetMoves "b" 8 ((56 : Nat) : Int) (List.replicate 64 false) =
      (none, [((56 : Nat) : Int) + 8]) ∧
    (((0 : Nat) : Int) - 8 < 0 ∧
      (((0 : Nat) : Int) - 8) ∈ (pawnGetMoves "w" 8 ((0 : Nat) : Int) (List.replicate 64 false)).2) :=
  ⟨(claim_C10 (List.replicate 64 false) 56 (by simp)).1 (by omega),
   (claim_C10 (List.replicate 64 false) 0 (by simp)).2 (by omega)⟩

end Chess
